import Mathlib

/-!
Shallow embedding of the CosplayRadar scoring/lifecycle core.

Numbers: Python floats are modelled as `ℚ` (for table lookups, tier
constants and rational arithmetic) and as `ℝ` where the source applies
`math.log10`.  Python `Optional` values are `Option`; Python dictionaries
holding boost tables are association lists looked up in order.
-/

namespace CosplayRadar

/-! ## trending_config.py — `TrendingConfig` (anilist-service) -/

/-- One entry of `popularity_boosts.tiers`. -/
structure PopularityTier where
  min_favourites : ℕ
  boost : ℚ
deriving DecidableEq

/-- One entry of `recency_boosts.tiers`. -/
structure RecencyTier where
  max_years_ago : ℤ
  boost : ℚ
deriving DecidableEq

/-- One entry of `series_keywords_boosts.trending_keywords`. -/
structure KeywordGroup where
  keywords : List (List Char)
  boost : ℚ
deriving DecidableEq

/-- The configuration read from `config/trending_config.json` by
`trending_config.py`.  The JSON file itself is not part of the sources,
so the tables are parameters of every statement. -/
structure TrendingConfig where
  gender_boosts : List (String × ℚ)
  popularity_tiers : List PopularityTier
  status_boosts : List (String × ℚ)
  recency_current_year : ℤ
  recency_tiers : List RecencyTier
  format_boosts : List (String × ℚ)
  role_boosts : List (String × ℚ)
  trending_keywords : List KeywordGroup
  keywords_default_boost : ℚ
  min_total_multiplier : ℚ
  max_total_multiplier : ℚ
deriving DecidableEq

/-- Python `dict.get(key, default)` over an association list. -/
def dict_get (table : List (String × ℚ)) (key : String) (dflt : ℚ) : ℚ :=
  ((table.find? (fun p => p.1 == key)).map (·.2)).getD dflt

/-- `TrendingConfig.get_gender_boost`: a missing gender uses the `"null"`
entry of the table; an unknown key falls back to `1.0`. -/
def get_gender_boost (cfg : TrendingConfig) (gender : Option String) : ℚ :=
  dict_get cfg.gender_boosts (gender.getD "null") 1

/-- `TrendingConfig.get_popularity_boost`: tiers sorted by
`min_favourites` descending, the first tier whose threshold is met wins,
`1.0` otherwise. -/
def get_popularity_boost (cfg : TrendingConfig) (favourites : ℕ) : ℚ :=
  let sorted_tiers :=
    cfg.popularity_tiers.mergeSort (fun a b => b.min_favourites ≤ a.min_favourites)
  (((sorted_tiers.find? (fun t => t.min_favourites ≤ favourites)).map (·.boost)).getD 1)

/-- `TrendingConfig.get_status_boost`: plain table lookup, `1.0` default. -/
def get_status_boost (cfg : TrendingConfig) (status : String) : ℚ :=
  dict_get cfg.status_boosts status 1

/-- `TrendingConfig.get_recency_boost`: a falsy (`None` or `0`)
`season_year` is neutral; otherwise the first tier (in file order) with
`years_ago ≤ max_years_ago` wins, `1.0` default. -/
def get_recency_boost (cfg : TrendingConfig) (season_year : Option ℤ) : ℚ :=
  match season_year with
  | none => 1
  | some y =>
    if y = 0 then 1
    else
      let years_ago := cfg.recency_current_year - y
      (((cfg.recency_tiers.find? (fun t => years_ago ≤ t.max_years_ago)).map (·.boost)).getD 1)

/-- `TrendingConfig.get_format_boost`. -/
def get_format_boost (cfg : TrendingConfig) (format : String) : ℚ :=
  dict_get cfg.format_boosts format 1

/-- `TrendingConfig.get_role_boost`. -/
def get_role_boost (cfg : TrendingConfig) (role : String) : ℚ :=
  dict_get cfg.role_boosts role 1

/-- `TrendingConfig.get_series_keywords_boost`: case-insensitive
substring match of the series name against keyword groups, first match
wins, configured default otherwise; a falsy name is neutral. -/
def get_series_keywords_boost (cfg : TrendingConfig) (series_name : Option (List Char)) : ℚ :=
  match series_name with
  | none => 1
  | some name =>
    if name = [] then 1
    else
      let series_lower := name.map Char.toLower
      (((cfg.trending_keywords.find?
          (fun g => g.keywords.any (fun k => decide (k <:+: series_lower)))).map (·.boost)).getD
        cfg.keywords_default_boost)

/-- Inputs of `TrendingConfig.calculate_total_multiplier` /
`get_boost_breakdown`. -/
structure BoostInputs where
  gender : Option String
  favourites : ℕ
  status : Option String
  season_year : Option ℤ
  format : Option String
  role : Option String
  series_name : Option (List Char)

/-- `TrendingConfig.calculate_total_multiplier`: product of the seven
boosts, clamped into `[min_total_multiplier, max_total_multiplier]`. -/
def calculate_total_multiplier (cfg : TrendingConfig) (i : BoostInputs) : ℚ :=
  let gender_boost := get_gender_boost cfg i.gender
  let popularity_boost := get_popularity_boost cfg i.favourites
  let status_boost := match i.status with | some s => get_status_boost cfg s | none => 1
  let recency_boost := get_recency_boost cfg i.season_year
  let format_boost := match i.format with | some f => get_format_boost cfg f | none => 1
  let role_boost := match i.role with | some r => get_role_boost cfg r | none => 1
  let keywords_boost := get_series_keywords_boost cfg i.series_name
  let total := gender_boost * popularity_boost * status_boost *
    recency_boost * format_boost * role_boost * keywords_boost
  max cfg.min_total_multiplier (min total cfg.max_total_multiplier)

/-- Return value of `TrendingConfig.get_boost_breakdown`. -/
structure BoostBreakdown where
  gender_boost : ℚ
  popularity_boost : ℚ
  status_boost : ℚ
  recency_boost : ℚ
  format_boost : ℚ
  role_boost : ℚ
  keywords_boost : ℚ
  raw_total : ℚ
  capped_total : ℚ
deriving DecidableEq

/-- `TrendingConfig.get_boost_breakdown`: the individual boosts, their raw
product, and the product clamped into the configured limits. -/
def get_boost_breakdown (cfg : TrendingConfig) (i : BoostInputs) : BoostBreakdown :=
  let gender_boost := get_gender_boost cfg i.gender
  let popularity_boost := get_popularity_boost cfg i.favourites
  let status_boost := match i.status with | some s => get_status_boost cfg s | none => 1
  let recency_boost := get_recency_boost cfg i.season_year
  let format_boost := match i.format with | some f => get_format_boost cfg f | none => 1
  let role_boost := match i.role with | some r => get_role_boost cfg r | none => 1
  let keywords_boost := get_series_keywords_boost cfg i.series_name
  let raw_total := ((((((1 * gender_boost) * popularity_boost) * status_boost) *
    recency_boost) * format_boost) * role_boost) * keywords_boost
  { gender_boost := gender_boost
    popularity_boost := popularity_boost
    status_boost := status_boost
    recency_boost := recency_boost
    format_boost := format_boost
    role_boost := role_boost
    keywords_boost := keywords_boost
    raw_total := raw_total
    capped_total := max cfg.min_total_multiplier (min raw_total cfg.max_total_multiplier) }

/-! ## src/processors/trending_processor.py — `TrendingProcessor`

The data classes `CharacterData`, `TrendingData` and `HistoricalData`
consumed here are declared outside the processor; their fields below are
exactly the attributes the processor reads. -/

/-- One element of `character.media_appearances` (a dict with keys
`role`, `season_year`, `average_score`, present or absent). -/
structure Appearance where
  role : Option String
  season_year : Option ℤ
  average_score : Option ℚ
deriving DecidableEq

/-- The character fields read by `TrendingProcessor`. -/
structure CharacterData where
  character_id : ℤ
  favourites : ℕ
  gender : Option String
  media_appearances : List Appearance
deriving DecidableEq

/-- The media fields read by `TrendingProcessor`; `characters` is the
list of the roles of the media's character entries. -/
structure TrendingData where
  media_id : ℤ
  popularity : ℕ
  favourites : ℕ
  trending_rank : Option ℕ
  average_score : Option ℚ
  season_year : Option ℤ
  characters : List (Option String)
deriving DecidableEq

/-- The `HistoricalData` fields read by
`TrendingProcessor._calculate_historical_momentum`. -/
structure HistoricalPoint where
  timestamp : ℤ
  trending_score : ℚ
deriving DecidableEq

/-- The `AniListConfig` boost fields read by `TrendingProcessor.__init__`
(`female_boost`, `male_boost`); `current_year` stands for
`datetime.now().year`, threaded explicitly to keep the functions pure. -/
structure ProcessorConfig where
  female_boost : ℚ
  male_boost : ℚ
deriving DecidableEq

/-- `TrendingProcessor._calculate_base_character_score` (real-valued:
the source calls `math.log10`). -/
noncomputable def calculate_base_character_score (c : CharacterData) : ℝ :=
  let favourites_score : ℝ := Real.logb 10 (↑(max 1 c.favourites)) * 10
  let media_factor : ℝ := min 5 ((c.media_appearances.length : ℝ) * (1/2))
  let main_roles := (c.media_appearances.filter (fun m => m.role == some "MAIN")).length
  let role_quality : ℝ := min 3 ((main_roles : ℝ) * (4/5))
  max 1 (favourites_score + media_factor + role_quality)

/-- `TrendingProcessor._calculate_gender_boost`: lookup in the
`gender_boosts` dict built in `__init__` (keys `FEMALE`, `MALE`,
`NON_BINARY`, `None`), default `1.0`. -/
def processor_gender_boost (cfg : ProcessorConfig) (gender : Option String) : ℚ :=
  match gender with
  | some "FEMALE" => cfg.female_boost
  | some "MALE" => cfg.male_boost
  | some "NON_BINARY" => 1
  | none => 1
  | some _ => 1

/-- `TrendingProcessor._calculate_character_recency_boost`: tiered on the
number of media from the last two years (a falsy `season_year` does not
count), neutral when there is nothing to inspect. -/
def character_recency_boost (current_year : ℤ) (c : CharacterData)
    (related_media : List TrendingData) : ℚ :=
  if c.media_appearances = [] ∧ related_media = [] then 1
  else
    let recent_appearances := c.media_appearances.countP
      (fun m => match m.season_year with
        | some y => decide (¬ y = 0 ∧ current_year - y ≤ 2)
        | none => false)
    let recent_related := related_media.countP
      (fun m => match m.season_year with
        | some y => decide (¬ y = 0 ∧ current_year - y ≤ 2)
        | none => false)
    let recent_media_count := recent_appearances + recent_related
    if 3 ≤ recent_media_count then 3/2
    else if 2 ≤ recent_media_count then 13/10
    else if 1 ≤ recent_media_count then 11/10
    else 1

/-- Truthy average scores of a list of appearances (Python skips both a
missing and a zero `average_score`). -/
def truthy_score (s : Option ℚ) : Option ℚ :=
  match s with
  | some v => if v = 0 then none else some v
  | none => none

/-- `TrendingProcessor._calculate_character_quality_boost`: tiered on the
mean of the truthy media scores, neutral when none exist. -/
def character_quality_boost (c : CharacterData) (related_media : List TrendingData) : ℚ :=
  let scores := c.media_appearances.filterMap (fun m => truthy_score m.average_score) ++
    related_media.filterMap (fun m => truthy_score m.average_score)
  if scores = [] then 1
  else
    let avg_score := scores.sum / scores.length
    if 85 ≤ avg_score then 7/5
    else if 80 ≤ avg_score then 6/5
    else if 75 ≤ avg_score then 11/10
    else if 70 ≤ avg_score then 1
    else 9/10

/-- The `role_weights` dict built in `TrendingProcessor.__init__`,
looked up with default `0.5`. -/
def role_weight (role : Option String) : ℚ :=
  match role with
  | some "MAIN" => 1
  | some "SUPPORTING" => 7/10
  | some "BACKGROUND" => 3/10
  | none => 1/2
  | some _ => 1/2

/-- `TrendingProcessor._calculate_role_boost`: average role weight times
a bonus of `1 + (main_roles - 1) * 0.1` when several weights reach 1. -/
def character_role_boost (c : CharacterData) : ℚ :=
  if c.media_appearances = [] then 1
  else
    let role_scores := c.media_appearances.map (fun m => role_weight m.role)
    let avg_role_weight := role_scores.sum / role_scores.length
    let main_roles := (role_scores.filter (fun w => decide (1 ≤ w))).length
    let main_role_boost : ℚ :=
      if 1 < main_roles then 1 + ((main_roles : ℚ) - 1) * (1/10) else 1
    avg_role_weight * main_role_boost

/-- Tier comparison at the end of
`TrendingProcessor._calculate_historical_momentum`. -/
def momentum_tier (recent_avg older_avg : ℚ) : ℚ :=
  if older_avg * (6/5) < recent_avg then 13/10
  else if older_avg * (11/10) < recent_avg then 23/20
  else if recent_avg < older_avg * (4/5) then 9/10
  else 1

/-- `TrendingProcessor._calculate_historical_momentum`: last three points
by timestamp; compares the mean of the last two scores with the first. -/
def historical_momentum (historical_data : List HistoricalPoint) : ℚ :=
  if historical_data.length < 2 then 1
  else
    let sorted_data := historical_data.mergeSort (fun a b => a.timestamp ≤ b.timestamp)
    let recent_data := sorted_data.drop (sorted_data.length - 3)
    match recent_data.map (·.trending_score) with
    | [a, b] => momentum_tier ((a + b) / 2) a
    | [a, b, c] => momentum_tier ((b + c) / 2) a
    | _ => 1

/-- The total boost multiplier applied on top of the base score in
`TrendingProcessor.calculate_character_trending_score` (the momentum
factor is `1.0` when no historical data is passed, which coincides with
`historical_momentum []`). -/
def character_total_boost (cfg : ProcessorConfig) (current_year : ℤ) (c : CharacterData)
    (related_media : List TrendingData) (historical_data : List HistoricalPoint) : ℚ :=
  processor_gender_boost cfg c.gender *
    character_recency_boost current_year c related_media *
    character_quality_boost c related_media *
    character_role_boost c *
    historical_momentum historical_data

/-- The `TrendingScoreData` fields set by the processor (the boosts are
rational table values; base and final scores are real). -/
structure TrendingScoreRecord where
  entity_id : ℤ
  entity_type : String
  base_score : ℝ
  gender_boost : ℚ
  recency_boost : ℚ
  quality_boost : ℚ
  role_boost : ℚ
  momentum_boost : ℚ
  final_score : ℝ

/-- `TrendingProcessor.calculate_character_trending_score` (happy path;
the `except` branch is unreachable in this total embedding): multiplies
base score and boosts, then normalizes into `[0, 100]`. -/
noncomputable def calculate_character_trending_score (cfg : ProcessorConfig)
    (current_year : ℤ) (c : CharacterData) (related_media : List TrendingData)
    (historical_data : List HistoricalPoint) : TrendingScoreRecord :=
  let base_score := calculate_base_character_score c
  let gender_boost := processor_gender_boost cfg c.gender
  let recency_boost := character_recency_boost current_year c related_media
  let quality_boost := character_quality_boost c related_media
  let role_boost := character_role_boost c
  let momentum_boost := historical_momentum historical_data
  let trending_score : ℝ := base_score * ↑gender_boost * ↑recency_boost *
    ↑quality_boost * ↑role_boost * ↑momentum_boost
  let normalized_score : ℝ := min 100 (max 0 trending_score)
  { entity_id := c.character_id
    entity_type := "character"
    base_score := base_score
    gender_boost := gender_boost
    recency_boost := recency_boost
    quality_boost := quality_boost
    role_boost := role_boost
    momentum_boost := momentum_boost
    final_score := normalized_score }

/-- `TrendingProcessor._calculate_base_media_score`. -/
noncomputable def calculate_base_media_score (m : TrendingData) : ℝ :=
  let popularity_score : ℝ := Real.logb 10 (↑(max 1 m.popularity)) * 8
  let favourites_score : ℝ := Real.logb 10 (↑(max 1 m.favourites)) * 6
  let trending_score : ℝ :=
    match m.trending_rank with
    | some r => if r = 0 then 0 else max 0 (10 - (r : ℝ) / 10)
    | none => 0
  max 1 (popularity_score + favourites_score + trending_score)

/-- `TrendingProcessor._calculate_media_recency_boost`. -/
def media_recency_boost (current_year : ℤ) (m : TrendingData) : ℚ :=
  match m.season_year with
  | none => 1
  | some y =>
    if y = 0 then 1
    else
      let years_old := current_year - y
      if years_old ≤ 0 then 3/2
      else if years_old ≤ 1 then 13/10
      else if years_old ≤ 2 then 11/10
      else if years_old ≤ 5 then 1
      else 9/10

/-- `TrendingProcessor._calculate_media_quality_boost`. -/
def media_quality_boost (m : TrendingData) : ℚ :=
  match truthy_score m.average_score with
  | none => 1
  | some score =>
    if 90 ≤ score then 3/2
    else if 85 ≤ score then 13/10
    else if 80 ≤ score then 6/5
    else if 75 ≤ score then 11/10
    else if 70 ≤ score then 1
    else 9/10

/-- `TrendingProcessor._calculate_character_diversity_boost`. -/
def character_diversity_boost (m : TrendingData) : ℚ :=
  if m.characters = [] then 1
  else
    let character_count := m.characters.length
    let main_characters := (m.characters.filter (fun r => r == some "MAIN")).length
    if 8 ≤ character_count ∧ 2 ≤ main_characters then 6/5
    else if 5 ≤ character_count ∧ 1 ≤ main_characters then 11/10
    else 1

/-- `TrendingProcessor.calculate_media_trending_score` (happy path).
Mirrors the source's field reuse: the diversity boost is stored under
`role_boost` and `gender_boost` is fixed to `1.0`. -/
noncomputable def calculate_media_trending_score (current_year : ℤ) (m : TrendingData)
    (historical_data : List HistoricalPoint) : TrendingScoreRecord :=
  let base_score := calculate_base_media_score m
  let recency_boost := media_recency_boost current_year m
  let quality_boost := media_quality_boost m
  let diversity_boost := character_diversity_boost m
  let momentum_boost := historical_momentum historical_data
  let trending_score : ℝ := base_score * ↑recency_boost * ↑quality_boost *
    ↑diversity_boost * ↑momentum_boost
  let normalized_score : ℝ := min 100 (max 0 trending_score)
  { entity_id := m.media_id
    entity_type := "media"
    base_score := base_score
    gender_boost := 1
    recency_boost := recency_boost
    quality_boost := quality_boost
    role_boost := diversity_boost
    momentum_boost := momentum_boost
    final_score := normalized_score }

/-! ## src/trending/calculator.py — `TrendingScoreCalculator` -/

/-- The `base_score` section of the calculator's trending configuration
(defaults in `_get_default_config`: `min_favourites = 1`,
`multiplier = 100`; the `log_base` key exists but the code hardcodes
`math.log10`). -/
structure BaseScoreConfig where
  min_favourites : ℕ
  multiplier : ℚ
deriving DecidableEq

/-- The `base_score` defaults of
`TrendingScoreCalculator._get_default_config`. -/
def default_base_score_config : BaseScoreConfig :=
  { min_favourites := 1, multiplier := 100 }

/-- `TrendingScoreCalculator.calculate_base_score`:
`log10(max(favourites, min_favourites) + 1) * multiplier`. -/
noncomputable def calculate_base_score (cfg : BaseScoreConfig) (favourites : ℕ) : ℝ :=
  let adjusted_favourites := max favourites cfg.min_favourites
  Real.logb 10 ((adjusted_favourites : ℝ) + 1) * (cfg.multiplier : ℝ)

/-- The `growth_calculation` section of the calculator's trending
configuration. -/
structure GrowthConfig where
  weight_7_days : ℚ
  weight_30_days : ℚ
  weight_90_days : ℚ
  max_multiplier : ℚ
  min_multiplier : ℚ
deriving DecidableEq

/-- The `growth_calculation` defaults of
`TrendingScoreCalculator._get_default_config`. -/
def default_growth_config : GrowthConfig :=
  { weight_7_days := 1/2, weight_30_days := 3/10, weight_90_days := 1/5
    max_multiplier := 5, min_multiplier := 1/10 }

/-- One weighted growth component of
`TrendingScoreCalculator.calculate_growth_multiplier`: the historical
value must exist and be truthy-positive, otherwise the component is the
neutral `0`. -/
def growth_component (weight : ℚ) (current : ℕ) (historical : Option ℕ) : ℚ :=
  match historical with
  | some h => if 0 < h then ((current : ℚ) - (h : ℚ)) / (h : ℚ) * weight else 0
  | none => 0

/-- `TrendingScoreCalculator.calculate_growth_multiplier`.  `current` is
`_get_current_favourites` (`none` when the character row is missing) and
`h7/h30/h90` the `_get_historical_favourites` values at the 7/30/90-day
lookbacks.  A falsy current value (missing row or `0` favourites) short
circuits to `1.0`; otherwise `1 + Σ components` is clamped into
`[min_multiplier, max_multiplier]`. -/
def calculate_growth_multiplier (cfg : GrowthConfig) (current : Option ℕ)
    (h7 h30 h90 : Option ℕ) : ℚ :=
  match current with
  | none => 1
  | some c =>
    if c = 0 then 1
    else
      let total_growth := growth_component cfg.weight_7_days c h7 +
        growth_component cfg.weight_30_days c h30 +
        growth_component cfg.weight_90_days c h90
      max cfg.min_multiplier (min cfg.max_multiplier (1 + total_growth))

/-! ## lifecycle-service/src/core — `LifecycleRulesManager` and
`LifecycleDecisionMaker` -/

/-- `thresholds.keep_active` of the lifecycle configuration. -/
structure KeepActiveThresholds where
  min_composite_score : ℚ
  min_popularity : ℚ
  min_favourites : ℚ
  min_character_trending : ℚ
deriving DecidableEq

/-- `thresholds` of the lifecycle configuration
(`extend_grace.min_composite_score_ratio` is `extend_grace_factor`). -/
structure LifecycleThresholds where
  keep_active : KeepActiveThresholds
  extend_grace_factor : ℚ
deriving DecidableEq

/-- `scoring.weights` of the lifecycle configuration. -/
structure ScoringWeights where
  popularity : ℚ
  favourites : ℚ
  trending : ℚ
  character_count_multiplier : ℚ
  avg_character_trending : ℚ
  max_character_trending : ℚ
deriving DecidableEq

/-- `scoring.bonus_conditions` of the lifecycle configuration (the two
bonus multipliers). -/
structure BonusConditions where
  high_character_engagement : ℚ
  seasonal_relevance : ℚ
deriving DecidableEq

/-- `periods` of the lifecycle configuration. -/
structure LifecyclePeriods where
  grace_period_days : ℤ
  extended_grace_days : ℤ
  cleanup_days : ℤ
deriving DecidableEq

/-- The full lifecycle configuration held by `LifecycleRulesManager`. -/
structure RulesConfig where
  periods : LifecyclePeriods
  thresholds : LifecycleThresholds
  weights : ScoringWeights
  bonus : BonusConditions
deriving DecidableEq

/-- `LifecycleRulesManager.DEFAULT_CONFIG`. -/
def default_rules_config : RulesConfig :=
  { periods := { grace_period_days := 42, extended_grace_days := 28, cleanup_days := 90 }
    thresholds :=
      { keep_active :=
          { min_composite_score := 50, min_popularity := 30
            min_favourites := 100, min_character_trending := 70 }
        extend_grace_factor := 7/10 }
    weights :=
      { popularity := 3/10, favourites := 1/5, trending := 1/5
        character_count_multiplier := 5, avg_character_trending := 1/5
        max_character_trending := 1/10 }
    bonus := { high_character_engagement := 6/5, seasonal_relevance := 11/10 } }

/-- The series metrics read by `LifecycleDecisionMaker`
(`is_current_season` stands for `_is_current_season`, i.e. a start date
within the last 90 days). -/
structure SeriesMetrics where
  popularity : ℚ
  favourites : ℚ
  trending : ℚ
  character_count : ℕ
  avg_character_trending : ℚ
  max_character_trending : ℚ
  is_current_season : Bool
deriving DecidableEq

/-- Python's banker's rounding (`round`) to an integer. -/
def py_round (q : ℚ) : ℤ :=
  let n := ⌊q⌋
  let r := q - (n : ℚ)
  if r < 1/2 then n
  else if 1/2 < r then n + 1
  else if Even n then n else n + 1

/-- Python `round(q, 2)`. -/
def py_round2 (q : ℚ) : ℚ :=
  (py_round (q * 100) : ℚ) / 100

/-- `LifecycleDecisionMaker._apply_bonus_conditions`: multiplicative
bonuses for very trendy characters and for current-season series. -/
def apply_bonus_conditions (bonus : BonusConditions) (s : SeriesMetrics)
    (base_score : ℚ) : ℚ :=
  let with_engagement :=
    if 80 ≤ s.max_character_trending then base_score * bonus.high_character_engagement
    else base_score
  if s.is_current_season then with_engagement * bonus.seasonal_relevance
  else with_engagement

/-- `LifecycleDecisionMaker._calculate_composite_score`: weighted sum of
the metrics, bonus multipliers, rounded to two decimals. -/
def calculate_composite_score (weights : ScoringWeights) (bonus : BonusConditions)
    (s : SeriesMetrics) : ℚ :=
  let score := s.popularity * weights.popularity + s.favourites * weights.favourites +
    s.trending * weights.trending +
    (s.character_count : ℚ) * weights.character_count_multiplier +
    s.avg_character_trending * weights.avg_character_trending +
    s.max_character_trending * weights.max_character_trending
  py_round2 (apply_bonus_conditions bonus s score)

/-- The verdicts of `LifecycleDecisionMaker`. -/
inductive LifecycleAction where
  | KEEP_ACTIVE
  | EXTEND_GRACE
  | ARCHIVE
deriving DecidableEq

/-- `LifecycleDecisionMaker._evaluate_decision`: keep-active needs the
composite threshold plus one of three metric floors; extend-grace needs
the ratio-scaled threshold plus any non-zero activity signal; archive
otherwise. -/
def evaluate_decision (s : SeriesMetrics) (composite_score : ℚ)
    (th : LifecycleThresholds) : LifecycleAction :=
  let keep_active_threshold := th.keep_active.min_composite_score
  if keep_active_threshold ≤ composite_score ∧
      (th.keep_active.min_popularity ≤ s.popularity ∨
        th.keep_active.min_favourites ≤ s.favourites ∨
        th.keep_active.min_character_trending ≤ s.max_character_trending) then
    LifecycleAction.KEEP_ACTIVE
  else
    let min_score_for_grace := keep_active_threshold * th.extend_grace_factor
    if min_score_for_grace ≤ composite_score ∧
        (0 < s.popularity ∨ 0 < s.trending ∨ 0 < s.character_count ∨
          0 < s.max_character_trending) then
      LifecycleAction.EXTEND_GRACE
    else LifecycleAction.ARCHIVE

/-- `LifecycleDecisionMaker.make_lifecycle_decision`: composite score
from the metrics, then the decision. -/
def make_lifecycle_decision (rules : RulesConfig) (s : SeriesMetrics) :
    LifecycleAction × ℚ :=
  let composite_score := calculate_composite_score rules.weights rules.bonus s
  (evaluate_decision s composite_score rules.thresholds, composite_score)

/-! ## src/processors/aggregation_processor.py — `AggregationProcessor` -/

/-- `AggregationPeriodEnum` of the database models. -/
inductive AggregationPeriod where
  | DAILY
  | WEEKLY
  | MONTHLY
  | YEARLY
deriving DecidableEq

/-- The retention fields of `AniListConfig` read by
`AggregationProcessor.__init__`. -/
structure RetentionConfig where
  daily_retention_days : ℤ
  weekly_retention_weeks : ℤ
  monthly_retention_months : ℤ
  yearly_retention_years : ℤ
deriving DecidableEq

/-- The age limit (in days) applied by `cleanup_old_data` to a record of
the given period type. -/
def retention_limit (cfg : RetentionConfig) (p : AggregationPeriod) : ℤ :=
  match p with
  | AggregationPeriod.DAILY => cfg.daily_retention_days
  | AggregationPeriod.WEEKLY => cfg.weekly_retention_weeks * 7
  | AggregationPeriod.MONTHLY => cfg.monthly_retention_months * 30
  | AggregationPeriod.YEARLY => cfg.yearly_retention_years * 365

/-- A historical aggregate as seen by `cleanup_old_data`: only the
entity, its age in whole days (`(now - timestamp).days`) and the period
type matter. -/
structure AggregateRecord where
  entity_id : ℤ
  age_days : ℤ
  period : AggregationPeriod
deriving DecidableEq

/-- `AggregationProcessor.cleanup_old_data`, kept-records component: the
loop keeps a record exactly when its age is within the retention window
of its period type. -/
def cleanup_old_data (cfg : RetentionConfig) : List AggregateRecord → List AggregateRecord
  | [] => []
  | r :: rest =>
    if r.age_days ≤ retention_limit cfg r.period then r :: cleanup_old_data cfg rest
    else cleanup_old_data cfg rest

/-- `AggregationProcessor.cleanup_old_data`, statistics component: how
many records of the given period type were removed. -/
def cleanup_removed_count (cfg : RetentionConfig) (p : AggregationPeriod)
    (data : List AggregateRecord) : ℕ :=
  (data.filter (fun r => r.period == p && !(r.age_days ≤ retention_limit cfg r.period))).length

/-- A Python `datetime` as used by `_get_time_window`'s weekly branch:
`day` counts days from an epoch that falls on a Monday (so
`datetime.weekday()` is `day % 7`), `time_of_day` is the time within the
day (seconds, fractional).  `timestamp - timedelta(days = k)` decrements
`day` by `k` and leaves `time_of_day` unchanged. -/
structure PyDateTime where
  day : ℤ
  time_of_day : ℚ
deriving DecidableEq

/-- `AggregationProcessor._get_time_window` for `days = 7`:
`timestamp - timedelta(days=timestamp.weekday())`. -/
def get_time_window_weekly (t : PyDateTime) : PyDateTime :=
  let days_since_monday := t.day % 7
  { day := t.day - days_since_monday, time_of_day := t.time_of_day }

/-- Two datetimes fall within the same calendar week (same Monday). -/
def same_calendar_week (a b : PyDateTime) : Prop :=
  a.day - a.day % 7 = b.day - b.day % 7

/-- The key under which `_aggregate_data` groups a snapshot for the
weekly rollup: `grouped_data[item.entity_id][time_window]`. -/
def weekly_group_key (entity_id : ℤ) (timestamp : PyDateTime) : ℤ × PyDateTime :=
  (entity_id, get_time_window_weekly timestamp)

/-! ## lifecycle-service rules loading and repository -/

/-- A possibly incomplete `periods` section of a loaded lifecycle
configuration file (a missing leaf is `none`). -/
structure PartialPeriods where
  grace_period_days : Option ℤ
  extended_grace_days : Option ℤ
  cleanup_days : Option ℤ
deriving DecidableEq

/-- A possibly incomplete lifecycle configuration as parsed from the
JSON file: any section or leaf may be missing. -/
structure PartialRulesConfig where
  periods : Option PartialPeriods
  thresholds : Option LifecycleThresholds
  weights : Option ScoringWeights
  bonus : Option BonusConditions
deriving DecidableEq

/-- A partial configuration with nothing in it. -/
def empty_partial_rules_config : PartialRulesConfig :=
  { periods := none, thresholds := none, weights := none, bonus := none }

/-- `LifecycleRulesManager._merge_with_default`: every key present in the
loaded file overrides the default, every missing key keeps the default
value (`deep_merge`). -/
def merge_with_default (p : PartialRulesConfig) : RulesConfig :=
  { periods :=
      match p.periods with
      | none => default_rules_config.periods
      | some pp =>
        { grace_period_days :=
            pp.grace_period_days.getD default_rules_config.periods.grace_period_days
          extended_grace_days :=
            pp.extended_grace_days.getD default_rules_config.periods.extended_grace_days
          cleanup_days := pp.cleanup_days.getD default_rules_config.periods.cleanup_days }
    thresholds := p.thresholds.getD default_rules_config.thresholds
    weights := p.weights.getD default_rules_config.weights
    bonus := p.bonus.getD default_rules_config.bonus }

/-- `LifecycleRulesManager._load_config`: with no config path, or a
missing/unreadable file, the defaults are used; a parsed file is merged
with the defaults.  The input is the parsed file when one was read. -/
def load_rules_config (parsed : Option PartialRulesConfig) : RulesConfig :=
  match parsed with
  | none => default_rules_config
  | some p => merge_with_default p

/-- `LifecycleStage` of `lifecycle_repository.py`. -/
inductive LifecycleStage where
  | UPCOMING
  | GRACE_PERIOD
  | EXTENDED_GRACE
  | ACTIVE_TRACKING
  | ARCHIVED
  | READY_FOR_DELETION
deriving DecidableEq

/-- The row fields tested by the `WHERE` clause of
`LifecycleRepository.get_expired_grace_period_series`;
`grace_period_start` is a timestamp in days (fractional). -/
structure LifecycleRow where
  series_id : ℤ
  stage : LifecycleStage
  grace_period_start : Option ℚ
deriving DecidableEq

/-- The `WHERE` clause of
`LifecycleRepository.get_expired_grace_period_series`: stage in
`{grace_period, extended_grace}`, start not null, and
`grace_period_start < NOW() - INTERVAL 'grace_days days'`. -/
def expired_grace_test (now : ℚ) (grace_days : ℤ) (r : LifecycleRow) : Prop :=
  (r.stage = LifecycleStage.GRACE_PERIOD ∨ r.stage = LifecycleStage.EXTENDED_GRACE) ∧
    ∃ t, r.grace_period_start = some t ∧ t < now - (grace_days : ℚ)

instance (now : ℚ) (grace_days : ℤ) (r : LifecycleRow) :
    Decidable (expired_grace_test now grace_days r) := by
  unfold expired_grace_test
  exact inferInstance

/-- `LifecycleRepository.get_expired_grace_period_series` as a selection
over the stored rows. -/
def get_expired_grace_period_series (now : ℚ) (grace_days : ℤ)
    (rows : List LifecycleRow) : List LifecycleRow :=
  rows.filter (fun r => decide (expired_grace_test now grace_days r))

/-! ## Remaining definitions used by the statements -/

/-- The raw (pre-normalization) character trending score of
`TrendingProcessor.calculate_character_trending_score`: base score times
the product of all boost multipliers. -/
noncomputable def character_raw_score (cfg : ProcessorConfig) (current_year : ℤ)
    (c : CharacterData) (related_media : List TrendingData)
    (historical_data : List HistoricalPoint) : ℝ :=
  calculate_base_character_score c *
    ↑(character_total_boost cfg current_year c related_media historical_data)

/-- The growth term exactly as the specification §4.3 words it (second
definition, for comparison with `growth_component` from the source):
`(current − historical_d) / historical_d` when a historical value
greater than `0` exists, else `0`. -/
def spec_growth_term (current : ℕ) (historical : Option ℕ) : ℚ :=
  match historical with
  | some h => if 0 < h then ((current : ℚ) - (h : ℚ)) / (h : ℚ) else 0
  | none => 0

/-- Decidability of the same-week relation on embedded datetimes. -/
instance (a b : PyDateTime) : Decidable (same_calendar_week a b) := by
  unfold same_calendar_week
  exact inferInstance

/-! ## Concrete instances used by witnesses and counterexamples -/

/-- A configuration whose boosts multiply far beyond the limits. -/
def config_overflow : TrendingConfig :=
  { gender_boosts := [("FEMALE", 2)]
    popularity_tiers := [{ min_favourites := 100, boost := 3 }]
    status_boosts := [("RELEASING", 2)]
    recency_current_year := 2025
    recency_tiers := [{ max_years_ago := 1, boost := 2 }]
    format_boosts := [("TV", 2)]
    role_boosts := [("MAIN", 2)]
    trending_keywords := []
    keywords_default_boost := 1
    min_total_multiplier := 1/2
    max_total_multiplier := 3 }

/-- Inputs hitting every boost of `config_overflow`. -/
def inputs_overflow : BoostInputs :=
  { gender := some "FEMALE", favourites := 1000, status := some "RELEASING"
    season_year := some 2025, format := some "TV", role := some "MAIN"
    series_name := none }

/-- A series with some (sub-floor) popularity used as C2's witness. -/
def series_low_metrics : SeriesMetrics :=
  { popularity := 10, favourites := 0, trending := 0, character_count := 0
    avg_character_trending := 0, max_character_trending := 0, is_current_season := false }

/-- A brand-new character: one favourite, no appearances, no history. -/
def char_fresh : CharacterData :=
  { character_id := 1, favourites := 1, gender := none, media_appearances := [] }

/-- A `MAIN` appearance with no season year and no average score. -/
def main_role_appearance : Appearance :=
  { role := some "MAIN", season_year := none, average_score := none }

/-- The retention defaults of `AniListConfig`: 30 days, 52 weeks, 24
months, 5 years. -/
def retention_defaults : RetentionConfig :=
  { daily_retention_days := 30, weekly_retention_weeks := 52
    monthly_retention_months := 24, yearly_retention_years := 5 }

/-- The only (hence most recent) aggregate of entity `1`, one day past
the daily retention window. -/
def old_daily_aggregate : AggregateRecord :=
  { entity_id := 1, age_days := 31, period := AggregationPeriod.DAILY }

/-- A series sitting exactly at the grace-window boundary:
`grace_period_start = 58`, evaluated at `now = 100` with a 42-day
window, so the elapsed time equals the window exactly. -/
def grace_boundary_row : LifecycleRow :=
  { series_id := 1, stage := LifecycleStage.GRACE_PERIOD, grace_period_start := some 58 }

/-- A snapshot taken Monday at midnight (`day 0` of a Monday-based
epoch). -/
def snapshot_monday : PyDateTime := { day := 0, time_of_day := 0 }

/-- A snapshot of the same entity taken the next day (Tuesday of the
same week) at 01:00. -/
def snapshot_tuesday : PyDateTime := { day := 1, time_of_day := 3600 }

/-- A series whose composite score is exactly the keep-active threshold
but whose every raw activity signal is zero. -/
def series_zero_activity : SeriesMetrics :=
  { popularity := 0, favourites := 0, trending := 0, character_count := 0
    avg_character_trending := 250, max_character_trending := 0, is_current_season := false }

/-- The processor configuration used in the C1 concrete instances (the
gender boost values are irrelevant: the characters have no gender). -/
def processor_config_ex : ProcessorConfig := { female_boost := 6/5, male_boost := 1 }

/-- A character with a billion favourites and ten MAIN roles: its raw
product `base * boosts = 98 * 1.9 = 186.2` overflows the 100 cap. -/
def char_many_mains : CharacterData :=
  { character_id := 7, favourites := 1000000000, gender := none
    media_appearances := [main_role_appearance, main_role_appearance,
      main_role_appearance, main_role_appearance, main_role_appearance,
      main_role_appearance, main_role_appearance, main_role_appearance,
      main_role_appearance, main_role_appearance] }

/-! ## Theorems -/

/-- **C3.** For every configuration with coherent limits and every
combination of boost inputs, `TrendingConfig.calculate_total_multiplier`
returns a value inside `[min_total_multiplier, max_total_multiplier]`,
whatever the raw product of the individual boosts is. -/
theorem c3_total_multiplier_within_limits (cfg : TrendingConfig) (i : BoostInputs)
    (h : cfg.min_total_multiplier ≤ cfg.max_total_multiplier) :
    cfg.min_total_multiplier ≤ calculate_total_multiplier cfg i ∧
      calculate_total_multiplier cfg i ≤ cfg.max_total_multiplier := by
  unfold calculate_total_multiplier
  exact ⟨le_max_left _ _, max_le h (min_le_right _ _)⟩

/-- Witness for C3: at `config_overflow`/`inputs_overflow` the raw
product (96) exceeds `max_total_multiplier` (3), yet the returned
multiplier stays within the limits. -/
theorem c3_total_multiplier_within_limits_witness :
    config_overflow.min_total_multiplier ≤ config_overflow.max_total_multiplier ∧
      config_overflow.max_total_multiplier <
        (get_boost_breakdown config_overflow inputs_overflow).raw_total ∧
      (config_overflow.min_total_multiplier ≤
          calculate_total_multiplier config_overflow inputs_overflow ∧
        calculate_total_multiplier config_overflow inputs_overflow ≤
          config_overflow.max_total_multiplier) :=
  ⟨by norm_num [config_overflow],
    by norm_num [get_boost_breakdown, get_gender_boost, get_popularity_boost,
      get_status_boost, get_recency_boost, get_format_boost, get_role_boost,
      get_series_keywords_boost, dict_get, config_overflow, inputs_overflow, List.find?],
    c3_total_multiplier_within_limits config_overflow inputs_overflow
      (by norm_num [config_overflow])⟩

/-- **C5.** `calculate_base_score` is
`log10(max(favourites, min_favourites) + 1) * multiplier` for the
configured values; with the default configuration
(`min_favourites = 1`, `multiplier = 100`), `favourites = 0` yields
exactly `log10(2) * 100`, a strictly positive floor. -/
theorem c5_base_score_formula_and_floor :
    (∀ (cfg : BaseScoreConfig) (favourites : ℕ),
        calculate_base_score cfg favourites =
          Real.logb 10 ((max favourites cfg.min_favourites : ℕ) + 1) * cfg.multiplier) ∧
      calculate_base_score default_base_score_config 0 = Real.logb 10 2 * 100 ∧
      0 < calculate_base_score default_base_score_config 0 := by
  refine ⟨fun cfg favourites => rfl, ?_, ?_⟩
  · show Real.logb 10 ((max (0 : ℕ) 1 : ℕ) + 1) * ((100 : ℚ) : ℝ) = Real.logb 10 2 * 100
    norm_num
  · show (0 : ℝ) < Real.logb 10 ((max (0 : ℕ) 1 : ℕ) + 1) * ((100 : ℚ) : ℝ)
    have h2 : (0 : ℝ) < Real.logb 10 2 := Real.logb_pos (by norm_num) (by norm_num)
    have : ((max (0 : ℕ) 1 : ℕ) : ℝ) + 1 = 2 := by norm_num
    rw [this]
    positivity

/-- **C10.** Every record produced by
`calculate_character_trending_score` or `calculate_media_trending_score`
has `final_score ∈ [0, 100]`: the product of base score and boosts is
normalized into that range before the record is built. -/
theorem c10_final_score_normalized (cfg : ProcessorConfig) (current_year : ℤ)
    (c : CharacterData) (related_media : List TrendingData)
    (historical_data : List HistoricalPoint) (m : TrendingData)
    (media_history : List HistoricalPoint) :
    (0 ≤ (calculate_character_trending_score cfg current_year c related_media
        historical_data).final_score ∧
      (calculate_character_trending_score cfg current_year c related_media
        historical_data).final_score ≤ 100) ∧
      (0 ≤ (calculate_media_trending_score current_year m media_history).final_score ∧
        (calculate_media_trending_score current_year m media_history).final_score ≤ 100) :=
  ⟨⟨le_min (by norm_num) (le_max_left 0 _), min_le_left _ _⟩,
    ⟨le_min (by norm_num) (le_max_left 0 _), min_le_left _ _⟩⟩

/-- **C6 (counterexample).** Pruning a history that consists of exactly
one (hence most recent) aggregate older than retention leaves nothing:
the entity ends with zero history, contradicting the claim. -/
theorem c6_counterexample_last_aggregate_removed :
    cleanup_old_data retention_defaults [old_daily_aggregate] = [] := by
  simp [cleanup_old_data, old_daily_aggregate, retention_defaults, retention_limit]

/-- **C6 (amended).** `cleanup_old_data` keeps a record exactly when its
age is within the per-period retention window; there is no
keep-the-most-recent-aggregate exception, so an entity whose aggregates
are all older than retention is left with zero history. -/
theorem c6_cleanup_keeps_exactly_fresh_records (cfg : RetentionConfig)
    (data : List AggregateRecord) (r : AggregateRecord) :
    r ∈ cleanup_old_data cfg data ↔
      r ∈ data ∧ r.age_days ≤ retention_limit cfg r.period := by
  induction data with
  | nil => simp [cleanup_old_data]
  | cons head tail ih =>
    by_cases h : head.age_days ≤ retention_limit cfg head.period
    · simp only [cleanup_old_data, if_pos h, List.mem_cons, ih]
      constructor
      · rintro (rfl | ⟨hm, hk⟩)
        · exact ⟨Or.inl rfl, h⟩
        · exact ⟨Or.inr hm, hk⟩
      · rintro ⟨rfl | hm, hk⟩
        · exact Or.inl rfl
        · exact Or.inr ⟨hm, hk⟩
    · simp only [cleanup_old_data, if_neg h, List.mem_cons, ih]
      constructor
      · rintro ⟨hm, hk⟩
        exact ⟨Or.inr hm, hk⟩
      · rintro ⟨rfl | hm, hk⟩
        · exact absurd hk h
        · exact ⟨hm, hk⟩

/-- **C7 (counterexample).** Loading a configuration file from which
every required key is missing does not fail: `_load_config` deep-merges
it with `DEFAULT_CONFIG` and startup proceeds with the defaults
silently substituted — there is no fatal configuration error. -/
theorem c7_counterexample_missing_keys_not_fatal :
    load_rules_config (some empty_partial_rules_config) = default_rules_config := rfl

/-- **C7 (amended).** `LifecycleRulesManager._load_config` never fails on
missing keys: with no parsed file it returns `DEFAULT_CONFIG`, and every
section missing from a parsed file is silently replaced by its default
(`_merge_with_default`); `TrendingScoreCalculator._load_trending_config`
behaves the same way with its own defaults. -/
theorem c7_missing_keys_get_defaults (p : PartialRulesConfig) :
    load_rules_config none = default_rules_config ∧
      (p.periods = none →
        (load_rules_config (some p)).periods = default_rules_config.periods) ∧
      (p.thresholds = none →
        (load_rules_config (some p)).thresholds = default_rules_config.thresholds) ∧
      (p.weights = none →
        (load_rules_config (some p)).weights = default_rules_config.weights) ∧
      (p.bonus = none →
        (load_rules_config (some p)).bonus = default_rules_config.bonus) := by
  refine ⟨rfl, ?_, ?_, ?_, ?_⟩ <;>
    · intro h
      simp [load_rules_config, merge_with_default, h]

/-- Witness for C7: the empty parsed file gets all four default
sections. -/
theorem c7_missing_keys_get_defaults_witness :
    (load_rules_config (some empty_partial_rules_config)).periods =
        default_rules_config.periods ∧
      (load_rules_config (some empty_partial_rules_config)).thresholds =
        default_rules_config.thresholds ∧
      (load_rules_config (some empty_partial_rules_config)).weights =
        default_rules_config.weights ∧
      (load_rules_config (some empty_partial_rules_config)).bonus =
        default_rules_config.bonus :=
  ⟨(c7_missing_keys_get_defaults empty_partial_rules_config).2.1 rfl,
    (c7_missing_keys_get_defaults empty_partial_rules_config).2.2.1 rfl,
    (c7_missing_keys_get_defaults empty_partial_rules_config).2.2.2.1 rfl,
    (c7_missing_keys_get_defaults empty_partial_rules_config).2.2.2.2 rfl⟩

/-- **C8 (counterexample).** The SQL predicate
`grace_period_start < NOW() - INTERVAL 'g days'` is strict, so a series
whose elapsed time equals the window exactly is NOT selected for
evaluation, contrary to the claimed inclusive boundary. -/
theorem c8_counterexample_boundary_excluded :
    (100 : ℚ) - 58 = 42 ∧
      get_expired_grace_period_series 100 42 [grace_boundary_row] = [] := by
  constructor
  · norm_num
  · simp [get_expired_grace_period_series, expired_grace_test, grace_boundary_row]
    norm_num

/-- **C8 (amended).** A series in GRACE_PERIOD or EXTENDED_GRACE with a
non-null `grace_period_start` is selected exactly when the elapsed time
since `grace_period_start` is strictly greater than the grace window;
the exact-boundary case is excluded. -/
theorem c8_expired_grace_selection (now : ℚ) (grace_days : ℤ)
    (rows : List LifecycleRow) (r : LifecycleRow) :
    r ∈ get_expired_grace_period_series now grace_days rows ↔
      r ∈ rows ∧
        (r.stage = LifecycleStage.GRACE_PERIOD ∨
          r.stage = LifecycleStage.EXTENDED_GRACE) ∧
        ∃ t, r.grace_period_start = some t ∧ (grace_days : ℚ) < now - t := by
  simp only [get_expired_grace_period_series, List.mem_filter, decide_eq_true_eq,
    expired_grace_test]
  exact and_congr_right fun _ => and_congr_right fun _ =>
    exists_congr fun t => and_congr_right fun _ => lt_sub_comm

/-- **C9.** Two snapshots of the same entity within the same calendar
week: `_get_time_window` moves each back to the Monday *date* of that
week but keeps each snapshot's own time of day, so `_aggregate_data`
groups them under two different keys and produces two weekly aggregates
instead of one — contradicting the function's own "start of the time
window" contract and §4.5. -/
theorem c9_weekly_bucket_keeps_time_of_day :
    same_calendar_week snapshot_monday snapshot_tuesday ∧
      weekly_group_key 7 snapshot_monday ≠ weekly_group_key 7 snapshot_tuesday ∧
      (get_time_window_weekly snapshot_tuesday).day = 0 ∧
      (get_time_window_weekly snapshot_tuesday).time_of_day = 3600 := by
  refine ⟨by simp [same_calendar_week, snapshot_monday, snapshot_tuesday], ?_, ?_, ?_⟩
  · intro h
    have h2 := congrArg (fun p => p.2.time_of_day) h
    simp only [weekly_group_key, get_time_window_weekly, snapshot_monday,
      snapshot_tuesday] at h2
    norm_num at h2
  · simp [get_time_window_weekly, snapshot_tuesday]
  · rfl

/-- Each weighted component of `calculate_growth_multiplier` equals the
spec's growth term times its weight. -/
theorem growth_component_eq (w : ℚ) (c : ℕ) (h : Option ℕ) :
    growth_component w c h = w * spec_growth_term c h := by
  cases h with
  | none => simp [growth_component, spec_growth_term]
  | some v =>
    simp only [growth_component, spec_growth_term]
    split_ifs <;> ring

/-- **C4 (amended).** For a truthy (positive) current favourites value
the growth multiplier is exactly
`clamp(1 + Σ weight_d * growth_d, min_multiplier, max_multiplier)` with
`growth_d = (current − historical_d)/historical_d` when a positive
historical value exists and `0` otherwise; and an entity with no
historical snapshots at all gets multiplier exactly `1.0` (the config
limits bracket `1`), not an error.  When the current favourites value is
falsy (`0` or missing) the code short-circuits to `1.0` instead of the
clamped formula. -/
theorem c4_growth_multiplier (cfg : GrowthConfig) (c : ℕ) (h7 h30 h90 : Option ℕ)
    (hc : 0 < c) :
    calculate_growth_multiplier cfg (some c) h7 h30 h90 =
      max cfg.min_multiplier (min cfg.max_multiplier
        (1 + (cfg.weight_7_days * spec_growth_term c h7 +
          cfg.weight_30_days * spec_growth_term c h30 +
          cfg.weight_90_days * spec_growth_term c h90))) ∧
      (cfg.min_multiplier ≤ 1 → 1 ≤ cfg.max_multiplier →
        calculate_growth_multiplier cfg (some c) none none none = 1) := by
  have hne : ¬ c = 0 := Nat.pos_iff_ne_zero.mp hc
  constructor
  · simp only [calculate_growth_multiplier, if_neg hne, growth_component_eq]
  · intro h1 h2
    simp only [calculate_growth_multiplier, if_neg hne, growth_component]
    norm_num
    rw [min_eq_right h2, max_eq_right h1]

/-- Witness for C4: default growth config, current favourites `10`,
history `5` at 7 days, nothing at 30 days, `20` at 90 days; and the
no-history case evaluating to exactly `1`. -/
theorem c4_growth_multiplier_witness :
    (0 : ℕ) < 10 ∧
      calculate_growth_multiplier default_growth_config (some 10) (some 5) none (some 20) =
        max default_growth_config.min_multiplier (min default_growth_config.max_multiplier
          (1 + (default_growth_config.weight_7_days * spec_growth_term 10 (some 5) +
            default_growth_config.weight_30_days * spec_growth_term 10 none +
            default_growth_config.weight_90_days * spec_growth_term 10 (some 20)))) ∧
      calculate_growth_multiplier default_growth_config (some 10) none none none = 1 :=
  ⟨by norm_num,
    (c4_growth_multiplier default_growth_config 10 (some 5) none (some 20) (by norm_num)).1,
    (c4_growth_multiplier default_growth_config 10 none none none (by norm_num)).2
      (by norm_num [default_growth_config]) (by norm_num [default_growth_config])⟩

/-- **C4 (counterexample).** An entity whose current favourites value is
`0` with positive history at all three lookbacks: the code returns `1.0`
(truthiness short-circuit), while the claimed formula
`clamp(1 + Σ weight_d * growth_d)` yields `0.1`. -/
theorem c4_counterexample_zero_current :
    calculate_growth_multiplier default_growth_config (some 0) (some 5) (some 5) (some 5) = 1 ∧
      max default_growth_config.min_multiplier (min default_growth_config.max_multiplier
        (1 + (default_growth_config.weight_7_days * spec_growth_term 0 (some 5) +
          default_growth_config.weight_30_days * spec_growth_term 0 (some 5) +
          default_growth_config.weight_90_days * spec_growth_term 0 (some 5)))) = 1/10 ∧
      (1 : ℚ) ≠ 1/10 := by
  refine ⟨rfl, ?_, by norm_num⟩
  norm_num [default_growth_config, spec_growth_term, min_def, max_def]

/-- **C2 (amended).** The decision is KEEP_ACTIVE iff the composite
score reaches `keep_active_threshold` and at least one of the three
metric floors holds.  At the exact threshold with all three floors
missed (and a coherent config), the decision is EXTEND_GRACE iff at
least one activity signal (`popularity`, `trending`, `character_count`,
`max_character_trending`) is strictly positive — with all signals zero
the decision is ARCHIVE, not EXTEND_GRACE. -/
theorem c2_decision_rule (s : SeriesMetrics) (composite_score : ℚ)
    (th : LifecycleThresholds) :
    (evaluate_decision s composite_score th = LifecycleAction.KEEP_ACTIVE ↔
      th.keep_active.min_composite_score ≤ composite_score ∧
        (th.keep_active.min_popularity ≤ s.popularity ∨
          th.keep_active.min_favourites ≤ s.favourites ∨
          th.keep_active.min_character_trending ≤ s.max_character_trending)) ∧
      (composite_score = th.keep_active.min_composite_score →
        s.popularity < th.keep_active.min_popularity →
        s.favourites < th.keep_active.min_favourites →
        s.max_character_trending < th.keep_active.min_character_trending →
        0 ≤ th.keep_active.min_composite_score →
        th.extend_grace_factor ≤ 1 →
        (evaluate_decision s composite_score th = LifecycleAction.EXTEND_GRACE ↔
          (0 < s.popularity ∨ 0 < s.trending ∨ 0 < s.character_count ∨
            0 < s.max_character_trending))) := by
  constructor
  · simp only [evaluate_decision]
    split_ifs with h1 h2 <;> simp [h1]
  · intro hce hp hf hm hk hr
    have hcond : ¬ (th.keep_active.min_composite_score ≤ composite_score ∧
        (th.keep_active.min_popularity ≤ s.popularity ∨
          th.keep_active.min_favourites ≤ s.favourites ∨
          th.keep_active.min_character_trending ≤ s.max_character_trending)) := by
      rintro ⟨-, h | h | h⟩
      · exact absurd h (not_le.mpr hp)
      · exact absurd h (not_le.mpr hf)
      · exact absurd h (not_le.mpr hm)
    have hgrace : th.keep_active.min_composite_score * th.extend_grace_factor ≤
        composite_score := by
      rw [hce]
      exact mul_le_of_le_one_right hk hr
    simp only [evaluate_decision, if_neg hcond]
    by_cases hact : (0 < s.popularity ∨ 0 < s.trending ∨ 0 < s.character_count ∨
      0 < s.max_character_trending)
    · rw [if_pos ⟨hgrace, hact⟩]
      simp [hact]
    · rw [if_neg (fun hh => hact hh.2)]
      simp [hact]

/-- Witness for C2: at the default thresholds, composite score exactly
`50` with popularity `10` (below every floor, yet a non-zero activity
signal) gives EXTEND_GRACE. -/
theorem c2_decision_rule_witness :
    evaluate_decision series_low_metrics 50 default_rules_config.thresholds =
      LifecycleAction.EXTEND_GRACE :=
  ((c2_decision_rule series_low_metrics 50 default_rules_config.thresholds).2
    rfl (by norm_num [series_low_metrics, default_rules_config])
    (by norm_num [series_low_metrics, default_rules_config])
    (by norm_num [series_low_metrics, default_rules_config])
    (by norm_num [default_rules_config])
    (by norm_num [default_rules_config])).mpr
    (Or.inl (by norm_num [series_low_metrics]))

/-- **C2 (counterexample).** With the default rules,
`series_zero_activity` has composite score exactly `50` (the
keep-active threshold) and popularity/favourites/max character trending
all below their minima, yet the decision is ARCHIVE — not the
EXTEND_GRACE the claim predicts. -/
theorem c2_counterexample_zero_activity :
    (make_lifecycle_decision default_rules_config series_zero_activity).2 =
        default_rules_config.thresholds.keep_active.min_composite_score ∧
      series_zero_activity.popularity <
        default_rules_config.thresholds.keep_active.min_popularity ∧
      series_zero_activity.favourites <
        default_rules_config.thresholds.keep_active.min_favourites ∧
      series_zero_activity.max_character_trending <
        default_rules_config.thresholds.keep_active.min_character_trending ∧
      (make_lifecycle_decision default_rules_config series_zero_activity).1 =
        LifecycleAction.ARCHIVE ∧
      LifecycleAction.ARCHIVE ≠ LifecycleAction.EXTEND_GRACE := by
  have hcomp : calculate_composite_score default_rules_config.weights
      default_rules_config.bonus series_zero_activity = 50 := by
    norm_num [calculate_composite_score, apply_bonus_conditions, py_round2, py_round,
      default_rules_config, series_zero_activity]
  refine ⟨?_, ?_, ?_, ?_, ?_, by simp⟩
  · show calculate_composite_score _ _ _ = _
    rw [hcomp]
    rfl
  · norm_num [series_zero_activity, default_rules_config]
  · norm_num [series_zero_activity, default_rules_config]
  · norm_num [series_zero_activity, default_rules_config]
  · show evaluate_decision _ (calculate_composite_score _ _ _) _ = _
    rw [hcomp]
    norm_num [evaluate_decision, series_zero_activity, default_rules_config]

/-- The record's final score in clamped-raw-product form (shared by the
C1 statements). -/
theorem character_final_score_eq (cfg : ProcessorConfig) (current_year : ℤ)
    (c : CharacterData) (related_media : List TrendingData)
    (historical_data : List HistoricalPoint) :
    (calculate_character_trending_score cfg current_year c related_media
        historical_data).final_score =
      min 100 (max 0 (character_raw_score cfg current_year c related_media
        historical_data)) := by
  have expand : (calculate_character_trending_score cfg current_year c related_media
      historical_data).final_score =
      min 100 (max 0 (calculate_base_character_score c *
        ↑(processor_gender_boost cfg c.gender) *
        ↑(character_recency_boost current_year c related_media) *
        ↑(character_quality_boost c related_media) *
        ↑(character_role_boost c) *
        ↑(historical_momentum historical_data))) := rfl
  have hprod : calculate_base_character_score c *
      ↑(processor_gender_boost cfg c.gender) *
      ↑(character_recency_boost current_year c related_media) *
      ↑(character_quality_boost c related_media) *
      ↑(character_role_boost c) *
      ↑(historical_momentum historical_data) =
      character_raw_score cfg current_year c related_media historical_data := by
    unfold character_raw_score character_total_boost
    push_cast
    ring
  rw [expand, hprod]

/-- **C1 (amended).** The record built by
`calculate_character_trending_score` satisfies
`final_score = clamp(base_score * total_multiplier, 0, 100)` where
`total_multiplier` is the *unclamped* product of the boost multipliers;
the exact equality `final_score = base_score * total_multiplier` holds
only when the raw product already lies in `[0, 100]`, and the
`[min_total_multiplier, max_total_multiplier]` clamp of
`TrendingConfig` plays no part in this processor's records. -/
theorem c1_record_final_score_clamped_product (cfg : ProcessorConfig)
    (current_year : ℤ) (c : CharacterData) (related_media : List TrendingData)
    (historical_data : List HistoricalPoint) :
    (calculate_character_trending_score cfg current_year c related_media
        historical_data).final_score =
      min 100 (max 0 (character_raw_score cfg current_year c related_media
        historical_data)) ∧
      (0 ≤ character_raw_score cfg current_year c related_media historical_data →
        character_raw_score cfg current_year c related_media historical_data ≤ 100 →
        (calculate_character_trending_score cfg current_year c related_media
            historical_data).final_score =
          (calculate_character_trending_score cfg current_year c related_media
            historical_data).base_score *
            ↑(character_total_boost cfg current_year c related_media historical_data)) := by
  refine ⟨character_final_score_eq cfg current_year c related_media historical_data, ?_⟩
  intro h0 h100
  rw [character_final_score_eq cfg current_year c related_media historical_data,
    max_eq_right h0, min_eq_right h100]
  rfl

/-- Witness for C1: for `char_fresh` the raw product is `1`, inside
`[0, 100]`, so the persisted `final_score` equals
`base_score * total_multiplier` exactly. -/
theorem c1_record_final_score_clamped_product_witness :
    0 ≤ character_raw_score processor_config_ex 2025 char_fresh [] [] ∧
      character_raw_score processor_config_ex 2025 char_fresh [] [] ≤ 100 ∧
      (calculate_character_trending_score processor_config_ex 2025 char_fresh []
          []).final_score =
        (calculate_character_trending_score processor_config_ex 2025 char_fresh []
          []).base_score *
          ↑(character_total_boost processor_config_ex 2025 char_fresh [] []) := by
  have hboost : character_total_boost processor_config_ex 2025 char_fresh [] [] = 1 := by
    norm_num [character_total_boost, processor_gender_boost, character_recency_boost,
      character_quality_boost, character_role_boost, historical_momentum, char_fresh,
      processor_config_ex]
  have hbase : calculate_base_character_score char_fresh = 1 := by
    unfold calculate_base_character_score
    norm_num [char_fresh, Real.logb_one]
  have hraw : character_raw_score processor_config_ex 2025 char_fresh [] [] = 1 := by
    unfold character_raw_score
    rw [hbase, hboost]
    norm_num
  have h0 : 0 ≤ character_raw_score processor_config_ex 2025 char_fresh [] [] := by
    rw [hraw]
    norm_num
  have h100 : character_raw_score processor_config_ex 2025 char_fresh [] [] ≤ 100 := by
    rw [hraw]
    norm_num
  exact ⟨h0, h100,
    (c1_record_final_score_clamped_product processor_config_ex 2025 char_fresh [] []).2
      h0 h100⟩

/-- **C1 (counterexample).** For `char_many_mains` the persisted record
has `final_score = 100` (the normalization cap) while
`base_score * (product of the stored boost multipliers) = 186.2`; the
claimed invariant `final_score == base_score * total_multiplier` fails,
and no configured total-multiplier clamp is involved at all. -/
theorem c1_counterexample_capped_record :
    (calculate_character_trending_score processor_config_ex 2025 char_many_mains []
        []).final_score ≠
      (calculate_character_trending_score processor_config_ex 2025 char_many_mains []
        []).base_score *
        ↑(character_total_boost processor_config_ex 2025 char_many_mains [] []) := by
  have hboost : character_total_boost processor_config_ex 2025 char_many_mains [] [] =
      19/10 := by
    norm_num [character_total_boost, processor_gender_boost, character_recency_boost,
      character_quality_boost, character_role_boost, historical_momentum,
      char_many_mains, main_role_appearance, processor_config_ex, truthy_score,
      role_weight]
    decide
  have hbase : calculate_base_character_score char_many_mains = 98 := by
    unfold calculate_base_character_score
    have h1 : (max 1 char_many_mains.favourites : ℕ) = 10 ^ 9 := by
      norm_num [char_many_mains]
    rw [h1]
    have h2 : ((10 ^ 9 : ℕ) : ℝ) = (10 : ℝ) ^ (9 : ℕ) := by
      push_cast
      ring
    rw [h2, Real.logb_pow, Real.logb_self_eq_one (by norm_num)]
    norm_num [char_many_mains, main_role_appearance]
  have hraw : character_raw_score processor_config_ex 2025 char_many_mains [] [] =
      931/5 := by
    unfold character_raw_score
    rw [hbase, hboost]
    norm_num
  have hfinal : (calculate_character_trending_score processor_config_ex 2025
      char_many_mains [] []).final_score = 100 := by
    rw [character_final_score_eq, hraw]
    norm_num [min_def, max_def]
  have hbase_field : (calculate_character_trending_score processor_config_ex 2025
      char_many_mains [] []).base_score = calculate_base_character_score char_many_mains :=
    rfl
  rw [hfinal, hbase_field, hbase, hboost]
  norm_num

end CosplayRadar
